import Mathlib

/-!
Shallow embedding of `src/clowc/src/parser/ast.rs` (the syntax-representation
layer of the clowlang compiler front end), together with theorems settling
the specification claims about it.

Rust `&str` values are modelled as `List Char`; byte offsets into a source
buffer become character offsets (every position `≤ length` is a valid
boundary in this model).  The unchecked slice `get_unchecked(line_start..)`
is modelled as an `Option`-returning bounds-checked slice, so that the
out-of-range branch is visible as `none`.
-/

namespace Clow

/-- `enum Error` from the source (currently the single variant
`UnterminatedString`). -/
inductive Error where
  | UnterminatedString
deriving DecidableEq, Fintype

/-- `enum Keyword` from the source. -/
inductive Keyword where
  | Fun
  | Pub
  | Impl
  | Enum
  | Const
  | Class
  | Do
  | For
  | If
  | Elif
  | Else
  | Match
  | While
deriving DecidableEq, Fintype

/-- `enum Operator` from the source. -/
inductive Operator where
  | Add
  | Sub
  | Mul
  | Div
  | Mod
  | Set
  | Equ
  | Neq
  | Lt
  | Lte
  | Gt
  | Gte
  | And
  | Or
  | Not
  | Xor
  | Shl
  | Shr
  | BitOr
  | BitAnd
  | BitNot
deriving DecidableEq, Fintype

/-- `enum Type` from the source (`Type` is reserved in Lean, hence `Ty`).
String payloads are borrowed slices, modelled as `List Char`. -/
inductive Ty where
  | Byte
  | Int
  | Long
  | Float
  | Double
  | Class (name : List Char)
  | Generic (name : List Char) (args : List Ty)

/-- `impl From<&str> for Type`: the five reserved case-sensitive spellings
map to scalar variants, everything else to `Class(type_name)`
(`from` is reserved in Lean, hence `fromName`). -/
def Ty.fromName (type_name : List Char) : Ty :=
  if type_name = "byte".data then Ty.Byte
  else if type_name = "int".data then Ty.Int
  else if type_name = "long".data then Ty.Long
  else if type_name = "float".data then Ty.Float
  else if type_name = "double".data then Ty.Double
  else Ty.Class type_name

/-- Discriminator for the `Generic` variant of `Ty`. -/
def Ty.isGeneric : Ty → Bool
  | .Generic _ _ => true
  | _ => false

/-- `impl fmt::Debug for Keyword`: the canonical surface spelling written by
the formatter. -/
def Keyword.fmt : Keyword → String
  | .Fun => "fn"
  | .Pub => "pub"
  | .Impl => "impl"
  | .Enum => "enum"
  | .Const => "const"
  | .Class => "class"
  | .Do => "do"
  | .For => "for"
  | .If => "if"
  | .Elif => "elif"
  | .Else => "else"
  | .Match => "match"
  | .While => "while"

/-- `impl fmt::Debug for Operator`: the canonical textual symbol written by
the formatter. -/
def Operator.fmt : Operator → String
  | .Add => "+"
  | .Sub => "-"
  | .Mul => "*"
  | .Div => "/"
  | .Mod => "%"
  | .Set => "="
  | .Equ => "=="
  | .Neq => "!="
  | .Lt => "<"
  | .Lte => "<="
  | .Gt => ">"
  | .Gte => ">="
  | .And => "&&"
  | .Or => "||"
  | .Not => "!"
  | .Xor => "^"
  | .Shl => "<<"
  | .Shr => ">>"
  | .BitOr => "|"
  | .BitAnd => "&"
  | .BitNot => "~"

/-- `type Context<'a> = (&'a str, &'a str)`: a human-readable label (e.g. a
file path) paired with the full source buffer. -/
abbrev Context := List Char × List Char

/-- `type SourceLoc = (usize, usize, usize)`: 1-based line, 1-based column,
and the offset where that line begins in the source buffer. -/
abbrev SourceLoc := Nat × Nat × Nat

/-- `struct ParseError(Error, Context, SourceLoc)` from the source. -/
structure ParseError where
  error : Error
  context : Context
  loc : SourceLoc

/-- The kind-specific message written by `fmt::Debug for ParseError`.  The
source writes the literal `"Untermiated string literal"` (sic). -/
def Error.message : Error → List Char
  | .UnterminatedString => "Untermiated string literal".data

/-- One step of Rust's `str::lines` mapping: after the first chunk of
`split_inclusive('\n')` has had its trailing `'\n'` removed, a trailing
`'\r'` is removed as well (only in that case). -/
def stripTrailingCR (l : List Char) : List Char :=
  if l.getLast? = some '\r' then l.dropLast else l

/-- Rust's `s.lines().next()`: `none` on the empty string; otherwise the
prefix up to the first `'\n'`, with a trailing `'\r'` stripped exactly when
the chunk was terminated by a `'\n'`. -/
def linesNext (s : List Char) : Option (List Char) :=
  if s.isEmpty then none
  else
    let pre := s.takeWhile (· != '\n')
    if pre.length < s.length then some (stripTrailingCR pre) else some pre

/-- The source's `source.get_unchecked(line_start..)`: the suffix slice when
the index is in range, and `none` for the out-of-range (undefined-behaviour)
branch. -/
def get_unchecked (s : List Char) (i : Nat) : Option (List Char) :=
  if i ≤ s.length then some (s.drop i) else none

/-- `impl fmt::Debug for ParseError`: writes
`"Error on {context}:{line}:{column}> "`, then the kind-specific message,
then `"\n  "` followed by `source.get_unchecked(line_start..).lines().next()
.unwrap_or("EOF")`.  Returns `none` exactly when the unchecked slice is out
of range. -/
def fmtParseError : ParseError → Option (List Char)
  | ⟨error, (context, source), (line, column, line_start)⟩ =>
    (get_unchecked source line_start).map fun suffix =>
      "Error on ".data ++ context ++ ":".data ++ (Nat.repr line).data ++ ":".data
        ++ (Nat.repr column).data ++ "> ".data ++ error.message
        ++ "\n  ".data ++ ((linesNext suffix).getD "EOF".data)

/-- Modelled from the spec: the offending line is "the slice of the context's
source buffer starting at the error's `line_start_offset` and extending up to
but not including the first line terminator, or to the end of the buffer when
no terminator follows" (a line terminator being `"\n"` or `"\r\n"`). -/
def specLineText (source : List Char) (line_start : Nat) : List Char :=
  let slice := source.drop line_start
  let pre := slice.takeWhile (· != '\n')
  if pre.length < slice.length then stripTrailingCR pre else pre

/-- Modelled from the spec: the diagnostic line format
`"Error on {context}:{line}:{column}> {message}\n  {source-line-text}"` with
the source-line text given by `specLineText`. -/
def specDiagnostic : ParseError → List Char
  | ⟨error, (context, source), (line, column, line_start)⟩ =>
    "Error on ".data ++ context ++ ":".data ++ (Nat.repr line).data ++ ":".data
      ++ (Nat.repr column).data ++ "> ".data ++ error.message
      ++ "\n  ".data ++ specLineText source line_start

end Clow

/-- Claim C2: `Type::from` is total over all string inputs: each of the five
case-sensitive spellings `byte`, `int`, `long`, `float`, `double` yields the
corresponding scalar variant, and every other string `s` yields `Class(s)`
with the original string preserved unchanged. -/
theorem claim_C2_type_from_total :
    Clow.Ty.fromName "byte".data = Clow.Ty.Byte ∧
    Clow.Ty.fromName "int".data = Clow.Ty.Int ∧
    Clow.Ty.fromName "long".data = Clow.Ty.Long ∧
    Clow.Ty.fromName "float".data = Clow.Ty.Float ∧
    Clow.Ty.fromName "double".data = Clow.Ty.Double ∧
    ∀ s : List Char, s ≠ "byte".data → s ≠ "int".data → s ≠ "long".data →
      s ≠ "float".data → s ≠ "double".data →
      Clow.Ty.fromName s = Clow.Ty.Class s := by
  refine ⟨rfl, rfl, rfl, rfl, rfl, ?_⟩
  intro s h1 h2 h3 h4 h5
  simp [Clow.Ty.fromName, h1, h2, h3, h4, h5]

/-- Witness for C2 at the concrete non-reserved input `"MyClass"`. -/
theorem claim_C2_type_from_total_witness :
    Clow.Ty.fromName "MyClass".data = Clow.Ty.Class "MyClass".data :=
  claim_C2_type_from_total.2.2.2.2.2 "MyClass".data
    (by decide) (by decide) (by decide) (by decide) (by decide)

/-- Claim C8: for every string input `s`, `Type::from(s)` never returns a
`Generic` variant. -/
theorem claim_C8_from_never_generic :
    ∀ s : List Char, (Clow.Ty.fromName s).isGeneric = false := by
  intro s
  simp only [Clow.Ty.fromName]
  repeat' split
  all_goals rfl

/-- Claim C6: every `Keyword` variant renders to the spelling in the spec's
table: Fun→fn, Pub→pub, Impl→impl, Enum→enum, Const→const, Class→class,
Do→do, For→for, If→if, Elif→elif, Else→else, Match→match, While→while. -/
theorem claim_C6_keyword_spellings :
    Clow.Keyword.fmt .Fun = "fn" ∧
    Clow.Keyword.fmt .Pub = "pub" ∧
    Clow.Keyword.fmt .Impl = "impl" ∧
    Clow.Keyword.fmt .Enum = "enum" ∧
    Clow.Keyword.fmt .Const = "const" ∧
    Clow.Keyword.fmt .Class = "class" ∧
    Clow.Keyword.fmt .Do = "do" ∧
    Clow.Keyword.fmt .For = "for" ∧
    Clow.Keyword.fmt .If = "if" ∧
    Clow.Keyword.fmt .Elif = "elif" ∧
    Clow.Keyword.fmt .Else = "else" ∧
    Clow.Keyword.fmt .Match = "match" ∧
    Clow.Keyword.fmt .While = "while" := by
  repeat' constructor

/-- Claim C7: every `Operator` variant renders to the symbol in the spec's
table. -/
theorem claim_C7_operator_spellings :
    Clow.Operator.fmt .Add = "+" ∧
    Clow.Operator.fmt .Sub = "-" ∧
    Clow.Operator.fmt .Mul = "*" ∧
    Clow.Operator.fmt .Div = "/" ∧
    Clow.Operator.fmt .Mod = "%" ∧
    Clow.Operator.fmt .Set = "=" ∧
    Clow.Operator.fmt .Equ = "==" ∧
    Clow.Operator.fmt .Neq = "!=" ∧
    Clow.Operator.fmt .Lt = "<" ∧
    Clow.Operator.fmt .Lte = "<=" ∧
    Clow.Operator.fmt .Gt = ">" ∧
    Clow.Operator.fmt .Gte = ">=" ∧
    Clow.Operator.fmt .And = "&&" ∧
    Clow.Operator.fmt .Or = "||" ∧
    Clow.Operator.fmt .Not = "!" ∧
    Clow.Operator.fmt .Xor = "^" ∧
    Clow.Operator.fmt .Shl = "<<" ∧
    Clow.Operator.fmt .Shr = ">>" ∧
    Clow.Operator.fmt .BitOr = "|" ∧
    Clow.Operator.fmt .BitAnd = "&" ∧
    Clow.Operator.fmt .BitNot = "~" := by
  repeat' constructor

/-- Claim C5: the canonical rendering of `Operator` is injective: distinct
variants render to different strings. -/
theorem claim_C5_operator_fmt_injective :
    ∀ a b : Clow.Operator, a ≠ b → Clow.Operator.fmt a ≠ Clow.Operator.fmt b := by
  decide

/-- Witness for C5 at the concrete distinct pair `Add`, `BitOr`. -/
theorem claim_C5_operator_fmt_injective_witness :
    Clow.Operator.fmt .Add ≠ Clow.Operator.fmt .BitOr :=
  claim_C5_operator_fmt_injective .Add .BitOr (by decide)

/-- Claim C10: the canonical rendering of `Keyword` is injective: distinct
variants render to different spellings. -/
theorem claim_C10_keyword_fmt_injective :
    ∀ a b : Clow.Keyword, a ≠ b → Clow.Keyword.fmt a ≠ Clow.Keyword.fmt b := by
  decide

/-- Witness for C10 at the concrete distinct pair `Fun`, `Pub`. -/
theorem claim_C10_keyword_fmt_injective_witness :
    Clow.Keyword.fmt .Fun ≠ Clow.Keyword.fmt .Pub :=
  claim_C10_keyword_fmt_injective .Fun .Pub (by decide)

/-- Claim C1: the spec asserts the kind-specific message for
`UnterminatedString` is exactly `"Unterminated string literal"`, but the
source writes the misspelt literal `"Untermiated string literal"`; on the
spec's own example input the rendered diagnostic therefore carries the
misspelt message and differs from the string the spec asserts. -/
theorem claim_C1_unterminated_message_misspelt :
    Clow.fmtParseError
        ⟨.UnterminatedString, ("file.clo".data, "let x = 1\nbad string\n".data), (2, 5, 10)⟩ =
      some "Error on file.clo:2:5> Untermiated string literal\n  bad string".data ∧
    Clow.fmtParseError
        ⟨.UnterminatedString, ("file.clo".data, "let x = 1\nbad string\n".data), (2, 5, 10)⟩ ≠
      some "Error on file.clo:2:5> Unterminated string literal\n  bad string".data := by
  constructor
  · decide
  · decide

/-- When the suffix starting at `line_start` is nonempty, `lines().next()` on
it yields exactly the spec's source-line text. -/
theorem linesNext_drop_eq_specLineText (source : List Char) (line_start : Nat)
    (h : source.drop line_start ≠ []) :
    Clow.linesNext (source.drop line_start) = some (Clow.specLineText source line_start) := by
  unfold Clow.linesNext Clow.specLineText
  rw [if_neg (by simp [List.isEmpty_iff, h])]
  by_cases hc :
      ((source.drop line_start).takeWhile (· != '\n')).length < (source.drop line_start).length
  · simp only [hc, if_pos hc, if_true]
  · simp only [hc, if_neg hc, if_false]

/-- Claim C3 counterexample: the claim's universal shape fails at a concrete
input where `line_start` equals the buffer length — the slice is empty, so
the renderer prints the sentinel `"EOF"` while the spec's words dictate the
(empty) slice running to the end of the buffer. -/
theorem claim_C3_shape_counterexample :
    Clow.fmtParseError ⟨.UnterminatedString, ("f".data, "ab".data), (1, 3, 2)⟩ ≠
      some (Clow.specDiagnostic ⟨.UnterminatedString, ("f".data, "ab".data), (1, 3, 2)⟩) := by
  decide

/-- Claim C3 (amended): for every ParseError whose `line_start` offset lies
strictly inside the source buffer (so the slice starting there is nonempty),
the rendered diagnostic has exactly the spec's shape
`"Error on {context}:{line}:{column}> {message}\n  {source-line-text}"`,
with the source-line text the slice from `line_start` up to but not
including the first line terminator, or to the end of the buffer when no
terminator follows. -/
theorem claim_C3_render_shape (error : Clow.Error) (context source : List Char)
    (line column line_start : Nat) (h : line_start < source.length) :
    Clow.fmtParseError ⟨error, (context, source), (line, column, line_start)⟩ =
      some (Clow.specDiagnostic ⟨error, (context, source), (line, column, line_start)⟩) := by
  have hne : source.drop line_start ≠ [] := by
    rw [ne_eq, List.drop_eq_nil_iff]
    omega
  simp only [Clow.fmtParseError, Clow.specDiagnostic, Clow.get_unchecked]
  rw [if_pos (Nat.le_of_lt h)]
  simp [linesNext_drop_eq_specLineText source line_start hne]

/-- Witness for the amended C3 at a concrete in-range input. -/
theorem claim_C3_render_shape_witness :
    Clow.fmtParseError ⟨.UnterminatedString, ("f".data, "ab\ncd".data), (1, 1, 0)⟩ =
      some (Clow.specDiagnostic ⟨.UnterminatedString, ("f".data, "ab\ncd".data), (1, 1, 0)⟩) :=
  claim_C3_render_shape .UnterminatedString "f".data "ab\ncd".data 1 1 0 (by decide)

/-- Claim C4: when `line_start` lies on a valid boundary strictly inside the
buffer and the error line is the final line with no trailing terminator
(no `'\n'` in the suffix), the unchecked slice is in range (its out-of-range
branch is not taken) and the renderer prints that line's full text. -/
theorem claim_C4_last_line_safe (error : Clow.Error) (context source : List Char)
    (line column line_start : Nat)
    (h1 : line_start < source.length)
    (h2 : '\n' ∉ source.drop line_start) :
    Clow.get_unchecked source line_start = some (source.drop line_start) ∧
    Clow.fmtParseError ⟨error, (context, source), (line, column, line_start)⟩ =
      some ("Error on ".data ++ context ++ ":".data ++ (Nat.repr line).data ++ ":".data
        ++ (Nat.repr column).data ++ "> ".data ++ error.message
        ++ "\n  ".data ++ source.drop line_start) := by
  have hgu : Clow.get_unchecked source line_start = some (source.drop line_start) := by
    unfold Clow.get_unchecked
    rw [if_pos (Nat.le_of_lt h1)]
  have hne : source.drop line_start ≠ [] := by
    rw [ne_eq, List.drop_eq_nil_iff]
    omega
  have htw : (source.drop line_start).takeWhile (· != '\n') = source.drop line_start := by
    rw [List.takeWhile_eq_self_iff]
    intro x hx
    have hxne : x ≠ '\n' := by
      intro he
      exact h2 (he ▸ hx)
    simpa using hxne
  have hln : Clow.linesNext (source.drop line_start) = some (source.drop line_start) := by
    unfold Clow.linesNext
    rw [if_neg (by simp [List.isEmpty_iff, hne])]
    simp only [htw, lt_irrefl, if_false]
  refine ⟨hgu, ?_⟩
  simp only [Clow.fmtParseError]
  rw [hgu]
  simp [hln]

/-- Witness for C4: a buffer whose last line `"bad"` has no trailing
terminator. -/
theorem claim_C4_last_line_safe_witness :
    Clow.get_unchecked "let x = 1\nbad".data 10 = some ("let x = 1\nbad".data.drop 10) ∧
    Clow.fmtParseError
        ⟨.UnterminatedString, ("file.clo".data, "let x = 1\nbad".data), (2, 5, 10)⟩ =
      some ("Error on ".data ++ "file.clo".data ++ ":".data ++ (Nat.repr 2).data ++ ":".data
        ++ (Nat.repr 5).data ++ "> ".data ++ Clow.Error.message .UnterminatedString
        ++ "\n  ".data ++ "let x = 1\nbad".data.drop 10) :=
  claim_C4_last_line_safe .UnterminatedString "file.clo".data "let x = 1\nbad".data 2 5 10
    (by decide) (by decide)

/-- Claim C9: when the slice starting at `line_start` contains no line at all
(it is empty, which under the in-range precondition means `line_start` equals
the buffer length), the renderer prints the literal sentinel `"EOF"` as the
source-line portion of the diagnostic. -/
theorem claim_C9_eof_sentinel (error : Clow.Error) (context source : List Char)
    (line column line_start : Nat)
    (h1 : line_start ≤ source.length) (h2 : source.drop line_start = []) :
    Clow.fmtParseError ⟨error, (context, source), (line, column, line_start)⟩ =
      some ("Error on ".data ++ context ++ ":".data ++ (Nat.repr line).data ++ ":".data
        ++ (Nat.repr column).data ++ "> ".data ++ error.message
        ++ "\n  ".data ++ "EOF".data) := by
  simp only [Clow.fmtParseError, Clow.get_unchecked]
  rw [if_pos h1, h2]
  simp [Clow.linesNext]

/-- Witness for C9 at a buffer of length 2 with `line_start = 2`. -/
theorem claim_C9_eof_sentinel_witness :
    Clow.fmtParseError ⟨.UnterminatedString, ("g".data, "xy".data), (1, 3, 2)⟩ =
      some ("Error on ".data ++ "g".data ++ ":".data ++ (Nat.repr 1).data ++ ":".data
        ++ (Nat.repr 3).data ++ "> ".data ++ Clow.Error.message .UnterminatedString
        ++ "\n  ".data ++ "EOF".data) :=
  claim_C9_eof_sentinel .UnterminatedString "g".data "xy".data 1 3 2 (by decide) (by decide)
